import Mathlib

/-!
# Verification of the med-guardian threshold/alert/OTP core

A shallow embedding, in Lean 4, of the core components of the med-guardian
backend:

* `backend/utils/threshold.py` — threshold resolution and breach evaluation
  (`_get_min_max_from_obj`, `evaluate_threshold`);
* `backend/utils/alerts.py` — shared alert-message formatting
  (`format_alert_message`);
* `backend/crud/crud.py` — the OTP engine (`invalidate_previous_otps`,
  `create_email_otp`, `get_latest_valid_otp`, `can_resend_otp`,
  `generate_and_send_email_otp`, `verify_email_otp`, `resend_email_otp`) and
  the alert → notification → emergency fan-out inside `create_health_data`.

Python floats are modelled as rationals (`ℚ`); the claims under study concern
only order comparisons and discrete control flow, never rounding of binary
floating point.  Database tables are modelled as lists of rows; SQLAlchemy
`query(...).filter_by(...).first()` becomes `List.find?`.  Wall-clock time is
an explicit `Nat` parameter (seconds).
-/

namespace MedGuardian

/-! ## Enums (backend/schemas/enums.py) -/

/-- `ThresholdSeverity` from `backend/schemas/enums.py` (values "low", "high",
"critical"). -/
inductive ThresholdSeverity
  | LOW
  | HIGH
  | CRITICAL
deriving DecidableEq, Repr

/-- The `.value` string of a `ThresholdSeverity` member. -/
def ThresholdSeverity.val : ThresholdSeverity → String
  | .LOW => "low"
  | .HIGH => "high"
  | .CRITICAL => "critical"

/-- `AlertMethod` from `backend/schemas/enums.py`. -/
inductive AlertMethod
  | SMS
  | EMAIL
  | PUSH
deriving DecidableEq, Repr

/-- `AlertStatus` from `backend/schemas/enums.py` (notification delivery
state: "pending", "sent", "failed"). -/
inductive AlertStatus
  | PENDING
  | SENT
  | FAILED
deriving DecidableEq, Repr

/-! ## Threshold resolution and breach evaluation
(`backend/utils/threshold.py`) -/

/-- The attribute view that `_get_min_max_from_obj` takes of a threshold row:
optional `low`/`high` attributes with optional `min_value`/`max_value`
fallbacks.  A Python attribute that is absent or `None` is `none` here (the
helper treats the two identically: an absent attribute leaves the local
variable `None`, exactly as a `None`-valued attribute does). -/
structure BandObj where
  low : Option ℚ
  high : Option ℚ
  min_value : Option ℚ
  max_value : Option ℚ
deriving DecidableEq, Repr

/-- `_get_min_max_from_obj` (threshold.py lines 14–49): read `(low, high)`
from a possibly-`None` object, preferring `low`/`high` and falling back to
`min_value`/`max_value` for whichever side is still `None`. -/
def getMinMaxFromObj : Option BandObj → Option ℚ × Option ℚ
  | none => (none, none)
  | some obj =>
      let low := match obj.low with
        | some l => some l
        | none => obj.min_value
      let high := match obj.high with
        | some h => some h
        | none => obj.max_value
      (low, high)

/-- A `ThresholdProfile` row (user-specific band) as seen by
`evaluate_threshold`: keyed by `(user_id, vital_type)`. -/
structure ProfileRow where
  user_id : ℕ
  vital_type : String
  obj : BandObj
deriving DecidableEq, Repr

/-- A `ThresholdDefault` row (system default band), keyed by `vital_type`. -/
structure DefaultRow where
  vital_type : String
  obj : BandObj
deriving DecidableEq, Repr

/-- The two threshold tables consulted by `evaluate_threshold`. -/
structure ThresholdDB where
  profiles : List ProfileRow
  defaults : List DefaultRow
deriving Repr

/-- `db.query(ThresholdProfile).filter_by(user_id=..., vital_type=...).first()`. -/
def findProfile (db : ThresholdDB) (user_id : ℕ) (vital_type : String) :
    Option ProfileRow :=
  db.profiles.find? fun r => r.user_id == user_id && r.vital_type == vital_type

/-- `db.query(ThresholdDefault).filter_by(vital_type=...).first()`. -/
def findDefault (db : ThresholdDB) (vital_type : String) : Option DefaultRow :=
  db.defaults.find? fun d => d.vital_type == vital_type

/-- The severity-determination step of `evaluate_threshold` (threshold.py
lines 78–88): `if min_val is not None and value < min_val: LOW
elif max_val is not None and value > max_val: HIGH` (else no severity). -/
def breachSeverity (min_val max_val : Option ℚ) (value : ℚ) :
    Option ThresholdSeverity :=
  if (match min_val with | some m => decide (value < m) | none => false) then
    some ThresholdSeverity.LOW
  else if (match max_val with | some h => decide (value > h) | none => false) then
    some ThresholdSeverity.HIGH
  else
    none

/-- The tail of `evaluate_threshold` once a band `(min_val, max_val)` has been
resolved (threshold.py lines 74–101): if both bounds are `None` return `None`
("nothing to check"), otherwise classify and return the breach severity (the
code wraps it in an `AlertEventCreate`; only the severity matters here, and
`None` models the no-alert return). -/
def evalResolvedBand (band : Option ℚ × Option ℚ) (value : ℚ) :
    Option ThresholdSeverity :=
  if band.1 = none ∧ band.2 = none then none
  else breachSeverity band.1 band.2 value

/-- `evaluate_threshold` (threshold.py lines 52–108): try the user-specific
`ThresholdProfile` row first; only when none exists fall back to the
`ThresholdDefault` row; when neither exists return `None` (not configured, no
alert). -/
def evaluate_threshold (db : ThresholdDB) (user_id : ℕ) (vital_type : String)
    (value : ℚ) : Option ThresholdSeverity :=
  match findProfile db user_id vital_type with
  | some profile => evalResolvedBand (getMinMaxFromObj (some profile.obj)) value
  | none =>
      match findDefault db vital_type with
      | none => none
      | some dflt => evalResolvedBand (getMinMaxFromObj (some dflt.obj)) value

/-! ## Alert message formatting (`backend/utils/alerts.py`) -/

/-- Python truthiness of an optional string (`None` and `""` are falsy). -/
def strTruthy : Option String → Bool
  | some s => !(s == "")
  | none => false

/-- Python truthiness of an optional number (`None` and `0` are falsy). -/
def numTruthy : Option ℚ → Bool
  | some q => decide (q ≠ 0)
  | none => false

/-- Python truthiness of an optional integer id (`None` and `0` are falsy). -/
def natTruthy : Option ℕ → Bool
  | some n => decide (n ≠ 0)
  | none => false

/-- The `.value` string of an `AlertMethod` member. -/
def AlertMethod.val : AlertMethod → String
  | .SMS => "sms"
  | .EMAIL => "email"
  | .PUSH => "push"

/-- The dynamically-typed `severity` attribute that `format_alert_message`
receives: a `ThresholdSeverity` enum member, a plain string, or anything else
(including a missing/`None` severity), which the formatter treats uniformly
(`.other`). -/
inductive SevVal
  | enum (s : ThresholdSeverity)
  | str (s : String)
  | other
deriving DecidableEq, Repr

/-- Python `str.upper()` (character-wise upper-casing; all strings in this
pipeline are ASCII). -/
def strUpper (s : String) : String := ⟨s.data.map Char.toUpper⟩

/-- The severity-rendering block of `format_alert_message` (alerts.py lines
41–47): an enum renders its upper-cased `.value`, a string is upper-cased, and
anything else renders as `"UNKNOWN"`. -/
def severityStr : SevVal → String
  | .enum s => strUpper s.val
  | .str s => strUpper s
  | .other => "UNKNOWN"

/-- The user-name block of `format_alert_message` (alerts.py line 34):
`getter("user_name") or getter("name") or "Unknown User"` with Python
truthiness (empty strings fall through). -/
def displayName (user_name name : Option String) : String :=
  if strTruthy user_name then user_name.getD ""
  else if strTruthy name then name.getD ""
  else "Unknown User"

/-- Python `round(q, 1)`, modelled on rationals: round to the nearest tenth
(`round` resolves exact halves upward where CPython's binary floats resolve
them by the nearest representable; the claims never exercise exact halves). -/
def roundPy1 (q : ℚ) : ℚ := (round (q * 10) : ℤ) / 10

/-- Decimal rendering of a rational that is a multiple of `1/10`, matching
CPython's repr of a one-decimal float (`96.0 → "96.0"`, `96.5 → "96.5"`);
other rationals fall back to the canonical rational rendering. -/
def tenthString (q : ℚ) : String :=
  if (q * 10).den = 1 then
    let t : ℤ := (q * 10).num
    (if t < 0 then "-" else "")
      ++ toString (t.natAbs / 10) ++ "." ++ toString (t.natAbs % 10)
  else toString q

/-- The value-rendering of `format_alert_message` (alerts.py lines 49–51, 63):
a float value is rounded to 1 decimal before interpolation; a `None` value
interpolates as `"None"`.  (All vital values in this pipeline are floats.) -/
def renderValue : Option ℚ → String
  | none => "None"
  | some q => tenthString (roundPy1 q)

/-- The duck-typed argument of `format_alert_message`: the attributes the
function reads through its `getter` (absent attributes read as `None`). -/
structure MsgInput where
  user_name : Option String
  name : Option String
  vital_type : Option String
  value : Option ℚ
  severity : SevVal
  latitude : Option ℚ
  longitude : Option ℚ
  alert_event_id : Option ℕ
  method : Option AlertMethod
deriving DecidableEq, Repr

/-- The map-link of `format_alert_message` (alerts.py line 56): present only
when both coordinates are truthy (non-`None`, non-zero). -/
def locationUrl (lat lng : Option ℚ) : Option String :=
  if numTruthy lat && numTruthy lng then
    some ("https://maps.google.com/?q=" ++ toString (lat.getD 0) ++ ","
      ++ toString (lng.getD 0))
  else none

/-- The `msg_lines` list built by `format_alert_message` when `vital_type` is
truthy (alerts.py lines 59–67); `none` when the vital branch is not taken. -/
def formatLines (a : MsgInput) : Option (List String) :=
  if strTruthy a.vital_type then
    some (["🚨 ALERT for " ++ displayName a.user_name a.name ++ " 🚨",
           strUpper (a.vital_type.getD "") ++ " breached "
             ++ severityStr a.severity ++ " threshold.",
           "Value: " ++ renderValue a.value]
      ++ (match locationUrl a.latitude a.longitude with
          | some url => ["📍 Last known location: " ++ url]
          | none => []))
  else none

/-- `format_alert_message` (alerts.py lines 12–80): the vital branch joins
`msg_lines` with newlines; otherwise the notification fallback fires when both
`alert_event_id` and `method` are truthy; otherwise the default fallback. -/
def format_alert_message (a : MsgInput) : String :=
  match formatLines a with
  | some lines => String.intercalate "\n" lines
  | none =>
      if natTruthy a.alert_event_id && a.method.isSome then
        "ALERT NOTIFICATION: Event " ++ toString (a.alert_event_id.getD 0)
          ++ " triggered via "
          ++ (match a.method with | some m => strUpper m.val | none => "") ++ "."
      else "ALERT: Threshold breached."

/-- `ThresholdSeverity[name]` lookup by member name, as in
`create_health_data` (crud.py line 666). -/
def sevByName : String → Option ThresholdSeverity
  | "LOW" => some .LOW
  | "HIGH" => some .HIGH
  | "CRITICAL" => some .CRITICAL
  | _ => none

/-- `ThresholdSeverity(value)` lookup by member value, as in
`create_health_data` (crud.py line 669). -/
def sevByValue : String → Option ThresholdSeverity
  | "low" => some .LOW
  | "high" => some .HIGH
  | "critical" => some .CRITICAL
  | _ => none

/-- The severity coercion of `create_health_data` (crud.py lines 662–675):
strings are resolved by enum name then by enum value, any failure or any
non-enum non-string value falls back to `ThresholdSeverity.LOW`.  (This — not
the message formatter — is where the "default to Low" behaviour lives.) -/
def coerceSeverity : SevVal → ThresholdSeverity
  | .enum e => e
  | .str s =>
      match sevByName (strUpper s) with
      | some e => e
      | none =>
          match sevByValue s with
          | some e => e
          | none => .LOW
  | .other => .LOW

/-! ## Alert → Notification → Emergency fan-out
(`create_health_data`, crud.py lines 687–767) -/

/-- The fields of a persisted `AlertEvent` row that the fan-out reads. -/
structure AlertRec where
  id : ℕ
  message : String
  latitude : Option ℚ
  longitude : Option ℚ
deriving DecidableEq, Repr

/-- An `EmergencyContact` row as read by the fan-out (phone number only). -/
structure Contact where
  phone_number : String
deriving DecidableEq, Repr

/-- An `AlertNotification` row. -/
structure Notification where
  alert_event_id : ℕ
  method : AlertMethod
  recipient : Option String
  message : String
  status : AlertStatus
deriving DecidableEq, Repr

/-- Observable persistence events of one `create_health_data` alert fan-out,
in commit order.  `idx` numbers the notifications of this fan-out in creation
order. -/
inductive Ev
  | persistAlert (id : ℕ)
  | persistNotif (idx : ℕ) (status : AlertStatus)
  | sendAttempt (idx : ℕ)
  | updateNotif (idx : ℕ) (status : AlertStatus)
  | persistEmergency (alertId : ℕ)
deriving DecidableEq, Repr

/-- The message-with-location used for SMS and push (crud.py lines 698–700,
728–730): the alert message, suffixed with a map link when both coordinates
are truthy. -/
def withLocation (a : AlertRec) : String :=
  if numTruthy a.latitude && numTruthy a.longitude then
    a.message ++ "\n📍 Last known location: https://maps.google.com/?q="
      ++ toString (a.latitude.getD 0) ++ "," ++ toString (a.longitude.getD 0)
  else a.message

/-- The per-contact SMS loop (crud.py lines 695–724): for each emergency
contact, persist an `AlertNotification` in `PENDING`, attempt `send_sms`
(outcome given by the `smsOk` oracle; an exception is a `false` outcome and is
caught), then update the status to `SENT` or `FAILED`.  Returns the final
notification rows and the event trace. -/
def smsFanOut (aid : ℕ) (msg : String) (smsOk : String → Bool) :
    ℕ → List Contact → List Notification × List Ev
  | _, [] => ([], [])
  | idx, c :: rest =>
      let st := if smsOk c.phone_number then AlertStatus.SENT else AlertStatus.FAILED
      let n : Notification := ⟨aid, .SMS, some c.phone_number, msg, st⟩
      let r := smsFanOut aid msg smsOk (idx + 1) rest
      (n :: r.1,
        Ev.persistNotif idx AlertStatus.PENDING :: Ev.sendAttempt idx
          :: Ev.updateNotif idx st :: r.2)

/-- The outcome of one alert's fan-out: the (already persisted) alert, the
final notification rows, and the ordered event trace. -/
structure FanOutResult where
  alert : AlertRec
  notifications : List Notification
  events : List Ev
deriving Repr

/-- One alert's fan-out inside `create_health_data` (crud.py lines 687–767):
the alert row is committed first; each contact's SMS notification is persisted
`PENDING`, attempted, and updated; the generic push notification is persisted
`PENDING` (and never sent or updated in this function); finally the emergency
row is persisted.  Every send failure is caught, so the function is total. -/
def alertFanOut (a : AlertRec) (contacts : List Contact)
    (smsOk : String → Bool) : FanOutResult :=
  let msg := withLocation a
  let r := smsFanOut a.id msg smsOk 0 contacts
  let pushNotif : Notification := ⟨a.id, .PUSH, none, msg, AlertStatus.PENDING⟩
  { alert := a,
    notifications := r.1 ++ [pushNotif],
    events := Ev.persistAlert a.id
      :: (r.2 ++ [Ev.persistNotif contacts.length AlertStatus.PENDING,
                  Ev.persistEmergency a.id]) }

/-! ## OTP engine (`backend/crud/crud.py` lines 64–272)

Time is in seconds (`ℕ`); the code mixes a minute TTL with second cooldowns,
so `OTP_TTL_MINUTES = 10` becomes `OTP_TTL_SECONDS = 600`.  The env-driven
configuration is taken at its documented defaults. -/

/-- `OTP_MAX_ATTEMPTS` (default 5). -/
def OTP_MAX_ATTEMPTS : ℕ := 5

/-- `OTP_TTL_MINUTES` (default 10), in seconds. -/
def OTP_TTL_SECONDS : ℕ := 600

/-- `OTP_RESEND_COOLDOWN_SECONDS` (default 30). -/
def OTP_RESEND_COOLDOWN_SECONDS : ℕ := 30

/-- `_hash_otp` (crud.py lines 85–88) is a keyed HMAC-SHA256 hex digest; it is
modelled as an injective tagging of the code, which captures exactly the
property the OTP flow relies on: hashes are equal iff the codes are equal
(`hmac.compare_digest` becomes string equality). -/
def hashOtp (code : String) : String := "hmac-sha256:" ++ code

/-- An `EmailOTP` row (models/models.py; fields read by the OTP flow). -/
structure EmailOTP where
  id : ℕ
  user_id : ℕ
  otp_hash : String
  created_at : ℕ
  expires_at : ℕ
  used : Bool
  attempts : ℕ
  purpose : String
deriving DecidableEq, Repr

/-- A `User` row as read by the OTP flow. -/
structure UserRec where
  id : ℕ
  email : String
  email_verified : Bool
deriving DecidableEq, Repr

/-- The persistent state the OTP engine reads and writes: the `users` and
`email_otps` tables plus the autoincrement counter for OTP ids. -/
structure OtpDB where
  users : List UserRec
  otps : List EmailOTP
  nextOtpId : ℕ
deriving DecidableEq, Repr

/-- `invalidate_previous_otps` (crud.py lines 126–137): mark every non-used
OTP row of `(user_id, purpose)` as `used = True` with `expires_at = now`. -/
def invalidate_previous_otps (db : OtpDB) (user_id : ℕ) (purpose : String)
    (now : ℕ) : OtpDB :=
  { db with otps := db.otps.map fun r =>
      if r.user_id == user_id && r.purpose == purpose && !r.used then
        { r with used := true, expires_at := now }
      else r }

/-- `create_email_otp` (crud.py lines 90–124): check the user exists (`none`
models the raised `ValueError`), then insert a fresh unused row carrying the
hash of the generated code; the plaintext `code` is a parameter (the model of
`_generate_numeric_otp`'s fresh random draw).  Returns the new state and the
new row's id. -/
def create_email_otp (db : OtpDB) (user_id : ℕ) (purpose : String)
    (code : String) (now : ℕ) : Option (OtpDB × ℕ) :=
  match db.users.find? (fun u => u.id == user_id) with
  | none => none
  | some _ =>
      let otp : EmailOTP :=
        { id := db.nextOtpId, user_id := user_id, otp_hash := hashOtp code,
          created_at := now, expires_at := now + OTP_TTL_SECONDS,
          used := false, attempts := 0, purpose := purpose }
      some ({ db with otps := db.otps ++ [otp], nextOtpId := db.nextOtpId + 1 },
        otp.id)

/-- `order_by(created_at.desc()).first()` over a filtered row list: the row
with the greatest `created_at` (ties resolved towards the later insertion,
matching a stable store; the flows under study never produce ties among the
filtered rows). -/
def pickLatest : List EmailOTP → Option EmailOTP
  | [] => none
  | r :: rest =>
      match pickLatest rest with
      | none => some r
      | some b => if b.created_at ≥ r.created_at then some b else some r

/-- `get_latest_valid_otp` (crud.py lines 139–148): the latest row of
`(user_id, purpose)` that is not used and not expired (`expires_at > now`). -/
def get_latest_valid_otp (db : OtpDB) (user_id : ℕ) (purpose : String)
    (now : ℕ) : Option EmailOTP :=
  pickLatest (db.otps.filter fun r =>
    r.user_id == user_id && r.purpose == purpose && !r.used
      && decide (now < r.expires_at))

/-- `can_resend_otp` (crud.py lines 150–162): no prior row, or the elapsed
seconds since the latest row's `created_at` reach the cooldown. -/
def can_resend_otp (db : OtpDB) (user_id : ℕ) (purpose : String) (now : ℕ) :
    Bool :=
  match pickLatest (db.otps.filter fun r =>
      r.user_id == user_id && r.purpose == purpose) with
  | none => true
  | some last =>
      decide ((now : ℤ) - (last.created_at : ℤ) ≥ OTP_RESEND_COOLDOWN_SECONDS)

/-- The typed outcome of `verify_email_otp` (the `reason` of its response
dict). -/
inductive VerifyResult
  | noValidCode
  | maxAttemptsExceeded
  | invalidCode (attempts_left : ℕ)
  | userMissing
  | verified
deriving DecidableEq, Repr

/-- In-place update of one OTP row by id (the ORM mutation + commit). -/
def updateOtp (db : OtpDB) (id : ℕ) (f : EmailOTP → EmailOTP) : OtpDB :=
  { db with otps := db.otps.map fun r => if r.id == id then f r else r }

/-- In-place update of one user row by id. -/
def updateUser (db : OtpDB) (id : ℕ) (f : UserRec → UserRec) : OtpDB :=
  { db with users := db.users.map fun u => if u.id == id then f u else u }

/-- `verify_email_otp` (crud.py lines 206–241): locate the latest valid
challenge (`noValidCode` when absent); if its attempts have reached
`OTP_MAX_ATTEMPTS`, mark it used and return `maxAttemptsExceeded`; on a hash
mismatch increment attempts and return `invalidCode` with the remaining
attempts; on a match mark it used, mark the user verified, and return
`verified` (`userMissing` models the `user_missing` branch). -/
def verify_email_otp (db : OtpDB) (user_id : ℕ) (code : String)
    (purpose : String) (now : ℕ) : OtpDB × VerifyResult :=
  match get_latest_valid_otp db user_id purpose now with
  | none => (db, .noValidCode)
  | some otp =>
      if otp.attempts ≥ OTP_MAX_ATTEMPTS then
        (updateOtp db otp.id (fun r => { r with used := true }),
          .maxAttemptsExceeded)
      else if hashOtp code ≠ otp.otp_hash then
        (updateOtp db otp.id (fun r => { r with attempts := otp.attempts + 1 }),
          .invalidCode (OTP_MAX_ATTEMPTS - (otp.attempts + 1)))
      else
        let db1 := updateOtp db otp.id (fun r => { r with used := true })
        match db1.users.find? (fun u => u.id == user_id) with
        | none => (db1, .userMissing)
        | some _ => (updateUser db1 user_id
            (fun u => { u with email_verified := true }), .verified)

/-- The response of `generate_and_send_email_otp` (its `ok`/`sent` fields and
the new row id). -/
structure GenResponse where
  ok : Bool
  sent : Bool
  otp_id : ℕ
deriving DecidableEq, Repr

/-- `generate_and_send_email_otp` (crud.py lines 164–203): optionally
invalidate previous challenges (always for purpose `"email_verification"`,
the defaults used at every call site), then create the new challenge and
attempt email delivery (`sendOk` oracle; a send failure is caught and reported
as `sent = False`).  A `none` response models the `ValueError` escaping from
`create_email_otp` — note the invalidation has already been committed then. -/
def generate_and_send_email_otp (db : OtpDB) (user_id : ℕ) (code : String)
    (invalidate_previous : Bool) (sendOk : Bool) (now : ℕ) :
    OtpDB × Option GenResponse :=
  let db1 := if invalidate_previous then
      invalidate_previous_otps db user_id "email_verification" now
    else db
  match create_email_otp db1 user_id "email_verification" code now with
  | none => (db1, none)
  | some (db2, oid) => (db2, some { ok := true, sent := sendOk, otp_id := oid })

/-- The response dict of `resend_email_otp` (`message` and `otp_sent`). -/
structure ResendResponse where
  message : String
  otp_sent : Bool
deriving DecidableEq, Repr

/-- `resend_email_otp` (crud.py lines 244–272): look the user up by email
(a non-existent account gets the generic "resent if account exists" response);
enforce the resend cooldown; otherwise issue a new challenge with
`invalidate_previous=True` (an escaped exception yields the "Failed to resend
OTP." response). -/
def resend_email_otp (db : OtpDB) (email : String) (code : String)
    (sendOk : Bool) (now : ℕ) : OtpDB × ResendResponse :=
  match db.users.find? (fun u => u.email == email) with
  | none =>
      (db, { message := "Verification code resent if account exists.",
             otp_sent := false })
  | some user =>
      if !can_resend_otp db user.id "email_verification" now then
        (db, { message := "Please wait before requesting another OTP.",
               otp_sent := false })
      else
        match generate_and_send_email_otp db user.id code true sendOk now with
        | (db2, some resp) =>
            (db2, { message := "Verification code resent if account exists.",
                    otp_sent := resp.sent })
        | (db2, none) =>
            (db2, { message := "Failed to resend OTP.", otp_sent := false })

/-- The OTP operations reachable from the routing layer
(`backend/routers/auth.py`): registration-time issue (line 44, which calls
`generate_and_send_email_otp` with the default `invalidate_previous=True`),
resend (line 71) and verify (line 83), each carrying the externally-supplied
fresh code, send outcome and wall-clock instant. -/
inductive OtpOp
  | issue (user_id : ℕ) (code : String) (sendOk : Bool) (now : ℕ)
  | resend (email code : String) (sendOk : Bool) (now : ℕ)
  | verify (user_id : ℕ) (code : String) (now : ℕ)

/-- The state transition of one OTP operation. -/
def otpStep (db : OtpDB) : OtpOp → OtpDB
  | .issue user_id code sendOk now =>
      (generate_and_send_email_otp db user_id code true sendOk now).1
  | .resend email code sendOk now =>
      (resend_email_otp db email code sendOk now).1
  | .verify user_id code now =>
      (verify_email_otp db user_id code "email_verification" now).1

/-- An initial state: arbitrary user table, no OTP rows yet. -/
def initOtpDB (users : List UserRec) : OtpDB :=
  { users := users, otps := [], nextOtpId := 0 }

/-- The state after a sequence of OTP operations from an initial state. -/
def runOtp (users : List UserRec) (ops : List OtpOp) : OtpDB :=
  ops.foldl otpStep (initOtpDB users)

/-- The unused (not-yet-consumed, not-yet-invalidated) challenge rows of
`(user_id, purpose)` in a state. -/
def unusedFor (db : OtpDB) (user_id : ℕ) (purpose : String) : List EmailOTP :=
  db.otps.filter fun r => r.user_id == user_id && r.purpose == purpose && !r.used

/-- The valid (unused and unexpired) challenge rows of `(user_id, purpose)`
at instant `now`. -/
def validFor (db : OtpDB) (user_id : ℕ) (purpose : String) (now : ℕ) :
    List EmailOTP :=
  db.otps.filter fun r =>
    r.user_id == user_id && r.purpose == purpose && !r.used
      && decide (now < r.expires_at)

/-! ## Concrete scenario states (used by counterexamples and witnesses) -/

/-- A single registered, not-yet-verified user. -/
def otpUser : UserRec := { id := 1, email := "a@x.com", email_verified := false }

/-- Issue code `"123456"` at `t = 0`, then five wrong verifies at `t = 1…5`
(the §8 scenario: `length=6`, `max_attempts=5`). -/
def c3Ops : List OtpOp :=
  [OtpOp.issue 1 "123456" true 0,
   OtpOp.verify 1 "000000" 1, OtpOp.verify 1 "000000" 2,
   OtpOp.verify 1 "000000" 3, OtpOp.verify 1 "000000" 4,
   OtpOp.verify 1 "000000" 5]

/-- The state after the five wrong verifies: one challenge, unused,
`attempts = 5`. -/
def c3Exhausted : OtpDB := runOtp [otpUser] c3Ops

/-- The state after the sixth verify (the first one past exhaustion),
performed with the correct code at `t = 6`. -/
def c3AfterSixth : OtpDB :=
  (verify_email_otp c3Exhausted 1 "123456" "email_verification" 6).1

/-- One challenge issued for `otpUser` at `t = 0` (cooldown scenario base). -/
def c9Db : OtpDB :=
  (generate_and_send_email_otp (initOtpDB [otpUser]) 1 "111111" true true 0).1

/-- A formatter input with a present vital but a garbled (non-enum,
non-string) severity and no user name (a missing `value` keeps the
counterexample about the severity rendering alone). -/
def c8Garbled : MsgInput :=
  { user_name := none, name := none, vital_type := some "heart_rate",
    value := none, severity := SevVal.other,
    latitude := none, longitude := none, alert_event_id := none,
    method := none }

/-! # Theorems -/

/-- The band-evaluation step coincides with the severity classifier (the
"both bounds `None`" early return is subsumed). -/
lemma evalResolvedBand_eq (min_val max_val : Option ℚ) (v : ℚ) :
    evalResolvedBand (min_val, max_val) v = breachSeverity min_val max_val v := by
  cases min_val <;> cases max_val <;>
    simp [evalResolvedBand, breachSeverity]

/-- The classifier returns `LOW` exactly when the low bound is set and the
value is strictly below it. -/
lemma breachSeverity_low_iff (a b : Option ℚ) (v : ℚ) :
    breachSeverity a b v = some ThresholdSeverity.LOW ↔
      ∃ L, a = some L ∧ v < L := by
  cases a with
  | none =>
      cases b with
      | none => simp [breachSeverity]
      | some H => by_cases hv : v > H <;> simp [breachSeverity, hv]
  | some L =>
      by_cases hv : v < L
      · simp [breachSeverity, hv]
      · cases b with
        | none => simp [breachSeverity, hv]
        | some H => by_cases hv2 : v > H <;> simp [breachSeverity, hv, hv2]

/-- The classifier returns `HIGH` exactly when the low check did not fire and
the high bound is set with the value strictly above it. -/
lemma breachSeverity_high_iff (a b : Option ℚ) (v : ℚ) :
    breachSeverity a b v = some ThresholdSeverity.HIGH ↔
      (∀ L, a = some L → ¬v < L) ∧ ∃ H, b = some H ∧ v > H := by
  cases a with
  | none =>
      cases b with
      | none => simp [breachSeverity]
      | some H => by_cases hv : v > H <;> simp [breachSeverity, hv]
  | some L =>
      by_cases hv : v < L
      · cases b with
        | none => simp [breachSeverity, hv]
        | some H => simp [breachSeverity, hv]
      · cases b with
        | none => simp [breachSeverity, hv]
        | some H =>
            by_cases hv2 : v > H <;> simp [breachSeverity, hv, hv2] <;> linarith

/-- The classifier returns no breach exactly when neither strict comparison
fires. -/
lemma breachSeverity_none_iff (a b : Option ℚ) (v : ℚ) :
    breachSeverity a b v = none ↔
      (∀ L, a = some L → ¬v < L) ∧ (∀ H, b = some H → ¬v > H) := by
  cases a with
  | none =>
      cases b with
      | none => simp [breachSeverity]
      | some H =>
          by_cases hv : v > H <;> simp [breachSeverity, hv] <;> linarith
  | some L =>
      by_cases hv : v < L
      · cases b with
        | none => simp [breachSeverity, hv]
        | some H => simp [breachSeverity, hv]
      · cases b with
        | none => simp [breachSeverity, hv]; linarith
        | some H =>
            by_cases hv2 : v > H <;> simp [breachSeverity, hv, hv2] <;>
              constructor <;> linarith

/-- **C1.** For every resolved band and observed value, `evaluate_threshold`'s
classification returns `LOW` iff the low bound is set and the value is
strictly below it; otherwise `HIGH` iff the high bound is set and the value is
strictly above it (so the low check precedes the high check); otherwise no
breach.  A value exactly equal to a bound never triggers that bound's breach,
and for a sane band (`low ≤ high`) a value equal to either bound is no breach
at all. -/
theorem evaluate_threshold_breach_rule (min_val max_val : Option ℚ) (v : ℚ) :
    (evalResolvedBand (min_val, max_val) v = some ThresholdSeverity.LOW ↔
      ∃ L, min_val = some L ∧ v < L)
    ∧ (evalResolvedBand (min_val, max_val) v = some ThresholdSeverity.HIGH ↔
      (∀ L, min_val = some L → ¬v < L) ∧ ∃ H, max_val = some H ∧ v > H)
    ∧ (evalResolvedBand (min_val, max_val) v = none ↔
      (∀ L, min_val = some L → ¬v < L) ∧ (∀ H, max_val = some H → ¬v > H))
    ∧ (∀ L, min_val = some L → v = L →
      evalResolvedBand (min_val, max_val) v ≠ some ThresholdSeverity.LOW)
    ∧ (∀ H, max_val = some H → v = H →
      evalResolvedBand (min_val, max_val) v ≠ some ThresholdSeverity.HIGH)
    ∧ (∀ L H, min_val = some L → max_val = some H → L ≤ H → v = L ∨ v = H →
      evalResolvedBand (min_val, max_val) v = none) := by
  refine ⟨?_, ?_, ?_, ?_, ?_, ?_⟩
  · rw [evalResolvedBand_eq]; exact breachSeverity_low_iff min_val max_val v
  · rw [evalResolvedBand_eq]; exact breachSeverity_high_iff min_val max_val v
  · rw [evalResolvedBand_eq]; exact breachSeverity_none_iff min_val max_val v
  · intro L hL hvL heq
    rw [evalResolvedBand_eq, breachSeverity_low_iff] at heq
    obtain ⟨L', hL', hlt⟩ := heq
    rw [hL] at hL'
    injection hL' with h
    rw [← h, hvL] at hlt
    exact lt_irrefl L hlt
  · intro H hH hvH heq
    rw [evalResolvedBand_eq, breachSeverity_high_iff] at heq
    obtain ⟨-, H', hH', hgt⟩ := heq
    rw [hH] at hH'
    injection hH' with h
    rw [← h, hvH] at hgt
    exact lt_irrefl H hgt
  · intro L H hL hH hLH hv
    rw [evalResolvedBand_eq, breachSeverity_none_iff]
    constructor
    · intro L' hL'
      rw [hL] at hL'
      cases hL'
      rcases hv with h | h <;> simp [h] <;> linarith
    · intro H' hH'
      rw [hH] at hH'
      cases hH'
      rcases hv with h | h <;> simp [h] <;> linarith

/-- Witness for C1 at the §8 scenario band `{low: 60, high: 100}`:
value 45 classifies `LOW`, the boundary value 60 is no breach. -/
theorem evaluate_threshold_breach_rule_witness :
    evalResolvedBand (some 60, some 100) (45 : ℚ) = some ThresholdSeverity.LOW
    ∧ evalResolvedBand (some 60, some 100) (60 : ℚ) = none := by
  constructor
  · exact (evaluate_threshold_breach_rule (some 60) (some 100) 45).1.mpr
      ⟨60, rfl, by norm_num⟩
  · exact (evaluate_threshold_breach_rule (some 60) (some 100)
      60).2.2.2.2.2 60 100 rfl rfl (by norm_num) (Or.inl rfl)

/-- **C2.** Threshold resolution precedence: when a user-specific profile row
exists for `(user, vital)`, the evaluation uses that row's band — and is
independent of the defaults table entirely; only when no profile row exists is
the system default used; when neither exists the evaluation returns `none`
(not configured — no alert). -/
theorem evaluate_threshold_precedence (db : ThresholdDB) (uid : ℕ)
    (vt : String) (v : ℚ) :
    (∀ p, findProfile db uid vt = some p →
      evaluate_threshold db uid vt v
        = evalResolvedBand (getMinMaxFromObj (some p.obj)) v
      ∧ ∀ ds, evaluate_threshold ⟨db.profiles, ds⟩ uid vt v
        = evaluate_threshold db uid vt v)
    ∧ (findProfile db uid vt = none → ∀ d, findDefault db vt = some d →
      evaluate_threshold db uid vt v
        = evalResolvedBand (getMinMaxFromObj (some d.obj)) v)
    ∧ (findProfile db uid vt = none → findDefault db vt = none →
      evaluate_threshold db uid vt v = none) := by
  obtain ⟨ps, ds0⟩ := db
  refine ⟨fun p hp => ?_, fun hp d hd => ?_, fun hp hd => ?_⟩
  · have hp' : ps.find? (fun r => r.user_id == uid && r.vital_type == vt)
        = some p := hp
    constructor
    · simp only [evaluate_threshold, findProfile]
      rw [hp']
    · intro ds
      simp only [evaluate_threshold, findProfile]
      rw [hp']
  · have hp' : ps.find? (fun r => r.user_id == uid && r.vital_type == vt)
        = none := hp
    have hd' : ds0.find? (fun r => r.vital_type == vt) = some d := hd
    simp only [evaluate_threshold, findProfile, findDefault]
    rw [hp', hd']
  · have hp' : ps.find? (fun r => r.user_id == uid && r.vital_type == vt)
        = none := hp
    have hd' : ds0.find? (fun r => r.vital_type == vt) = none := hd
    simp only [evaluate_threshold, findProfile, findDefault]
    rw [hp', hd']

/-- Witness for C2: with both a user profile `{low: 50, high: 90}` and a
default `{low: 60, high: 100}` present for `heart_rate`, value 95 evaluates
against the user band (`HIGH`); with only the default it evaluates against
the default (no breach); with neither, no alert. -/
theorem evaluate_threshold_precedence_witness :
    evaluate_threshold
        ⟨[⟨1, "heart_rate", ⟨some 50, some 90, none, none⟩⟩],
         [⟨"heart_rate", ⟨some 60, some 100, none, none⟩⟩]⟩ 1 "heart_rate" 95
      = evalResolvedBand (some 50, some 90) 95
    ∧ evaluate_threshold
        ⟨[], [⟨"heart_rate", ⟨some 60, some 100, none, none⟩⟩]⟩ 1 "heart_rate" 95
      = evalResolvedBand (some 60, some 100) 95
    ∧ evaluate_threshold (⟨[], []⟩ : ThresholdDB) 1 "heart_rate" 95 = none := by
  refine ⟨?_, ?_, ?_⟩
  · exact ((evaluate_threshold_precedence
      ⟨[⟨1, "heart_rate", ⟨some 50, some 90, none, none⟩⟩],
       [⟨"heart_rate", ⟨some 60, some 100, none, none⟩⟩]⟩ 1 "heart_rate" 95).1
      ⟨1, "heart_rate", ⟨some 50, some 90, none, none⟩⟩ (by decide)).1
  · exact (evaluate_threshold_precedence
      ⟨[], [⟨"heart_rate", ⟨some 60, some 100, none, none⟩⟩]⟩
      1 "heart_rate" 95).2.1 (by decide)
      ⟨"heart_rate", ⟨some 60, some 100, none, none⟩⟩ (by decide)
  · exact (evaluate_threshold_precedence ⟨[], []⟩ 1 "heart_rate" 95).2.2
      (by decide) (by decide)

/-- **C10.** An existing user-specific profile row whose resolved bounds are
both `None` shadows the default: the evaluation returns no breach for every
value and every defaults table — the system default is never consulted, even
when one exists with usable bounds. -/
theorem empty_profile_shadows_default (profiles : List ProfileRow)
    (defaults : List DefaultRow) (uid : ℕ) (vt : String) (v : ℚ)
    (p : ProfileRow) (hp : findProfile ⟨profiles, defaults⟩ uid vt = some p)
    (hempty : getMinMaxFromObj (some p.obj) = (none, none)) :
    evaluate_threshold ⟨profiles, defaults⟩ uid vt v = none := by
  have hp' : profiles.find? (fun r => r.user_id == uid && r.vital_type == vt)
      = some p := hp
  simp only [evaluate_threshold, findProfile]
  rw [hp']
  show evalResolvedBand (getMinMaxFromObj (some p.obj)) v = none
  rw [hempty]
  simp [evalResolvedBand]

/-- Witness for C10: an all-`None` profile row for `(1, heart_rate)` yields no
alert at value 45 although a default `{low: 60, high: 100}` (which alone
would classify 45 as `LOW`) is present. -/
theorem empty_profile_shadows_default_witness :
    evaluate_threshold
      ⟨[⟨1, "heart_rate", ⟨none, none, none, none⟩⟩],
       [⟨"heart_rate", ⟨some 60, some 100, none, none⟩⟩]⟩ 1 "heart_rate" 45
      = none
    ∧ evaluate_threshold
      ⟨[], [⟨"heart_rate", ⟨some 60, some 100, none, none⟩⟩]⟩ 1 "heart_rate" 45
      = some ThresholdSeverity.LOW := by
  constructor
  · exact empty_profile_shadows_default
      [⟨1, "heart_rate", ⟨none, none, none, none⟩⟩]
      [⟨"heart_rate", ⟨some 60, some 100, none, none⟩⟩] 1 "heart_rate" 45
      ⟨1, "heart_rate", ⟨none, none, none, none⟩⟩ (by decide) (by decide)
  · decide

/-! ### C8 — message formatting tolerance -/

/-- **C8 counterexample.** At a concrete alert-like input with a garbled
(non-enum, non-string) severity, `format_alert_message` renders the severity
as `UNKNOWN`: it does **not** fall back to `Low`, so the message differs from
the one produced for a `LOW` severity.  (The missing-name placeholder part of
the claim does hold, as the rendered message shows.) -/
theorem format_alert_message_garbled_not_low :
    format_alert_message c8Garbled
      = "🚨 ALERT for Unknown User 🚨\nHEART_RATE breached UNKNOWN threshold.\nValue: None"
    ∧ format_alert_message c8Garbled
      ≠ format_alert_message { c8Garbled with severity := SevVal.enum ThresholdSeverity.LOW }
    ∧ severityStr SevVal.other = "UNKNOWN" := by
  refine ⟨by decide, by decide, by decide⟩

/-- **C8 (amended).** For every alert-like input with a non-empty vital type:
the formatter emits the three-line template; a missing user name (both
`user_name` and `name` untruthy) is replaced by the placeholder
`"Unknown User"`; a missing or garbled (non-enum, non-string) severity is
rendered as `"UNKNOWN"` in the message — the fallback to `LOW` lives in
`create_health_data`'s severity coercion for the stored alert, not in the
formatter; a numeric float value is rendered rounded to 1 decimal. -/
theorem format_alert_message_tolerant (a : MsgInput) (vt : String)
    (hvt : a.vital_type = some vt) (hne : vt ≠ "") :
    ∃ lines, formatLines a = some lines
      ∧ format_alert_message a = String.intercalate "\n" lines
      ∧ (strTruthy a.user_name = false → strTruthy a.name = false →
          lines.head? = some "🚨 ALERT for Unknown User 🚨")
      ∧ (strUpper vt ++ " breached " ++ severityStr a.severity ++ " threshold.")
          ∈ lines
      ∧ severityStr SevVal.other = "UNKNOWN"
      ∧ coerceSeverity SevVal.other = ThresholdSeverity.LOW
      ∧ (∀ q, a.value = some q →
          ("Value: " ++ tenthString (roundPy1 q)) ∈ lines) := by
  have htr : strTruthy a.vital_type = true := by
    rw [hvt]
    simpa [strTruthy] using hne
  refine ⟨["🚨 ALERT for " ++ displayName a.user_name a.name ++ " 🚨",
           strUpper (a.vital_type.getD "") ++ " breached "
             ++ severityStr a.severity ++ " threshold.",
           "Value: " ++ renderValue a.value]
      ++ (match locationUrl a.latitude a.longitude with
          | some url => ["📍 Last known location: " ++ url]
          | none => []), ?_, ?_, ?_, ?_, rfl, rfl, ?_⟩
  · simp only [formatLines, htr, if_true]
  · simp only [format_alert_message, formatLines, htr, if_true]
  · intro hu hn
    have hd : displayName a.user_name a.name = "Unknown User" := by
      simp [displayName, hu, hn]
    rw [hd]
    rfl
  · rw [hvt]
    exact List.mem_append_left _
      (List.mem_cons_of_mem _ (List.mem_cons_self _ _))
  · intro q hq
    rw [hq]
    exact List.mem_append_left _
      (List.mem_cons_of_mem _ (List.mem_cons_of_mem _ (List.mem_cons_self _ _)))

/-- Witness for C8 (amended), at the garbled-severity input `c8Garbled`. -/
theorem format_alert_message_tolerant_witness :
    ∃ lines, formatLines c8Garbled = some lines
      ∧ format_alert_message c8Garbled = String.intercalate "\n" lines
      ∧ (strTruthy c8Garbled.user_name = false → strTruthy c8Garbled.name = false →
          lines.head? = some "🚨 ALERT for Unknown User 🚨")
      ∧ (strUpper "heart_rate" ++ " breached " ++ severityStr c8Garbled.severity
          ++ " threshold.") ∈ lines
      ∧ severityStr SevVal.other = "UNKNOWN"
      ∧ coerceSeverity SevVal.other = ThresholdSeverity.LOW
      ∧ (∀ q, c8Garbled.value = some q →
          ("Value: " ++ tenthString (roundPy1 q)) ∈ lines) :=
  format_alert_message_tolerant c8Garbled "heart_rate" rfl (by decide)

/-! ### C5 — per-recipient failure isolation in the fan-out -/

/-- The SMS loop creates exactly one notification per contact. -/
lemma smsFanOut_fst_length (aid : ℕ) (msg : String) (ok : String → Bool) :
    ∀ (cs : List Contact) (idx : ℕ),
      (smsFanOut aid msg ok idx cs).1.length = cs.length := by
  intro cs
  induction cs with
  | nil => intro idx; simp [smsFanOut]
  | cons c rest ih => intro idx; simp [smsFanOut, ih]

/-- The `i`-th notification of the SMS loop: addressed to the `i`-th contact,
status determined solely by that contact's own send outcome. -/
lemma smsFanOut_fst_get (aid : ℕ) (msg : String) (ok : String → Bool) :
    ∀ (cs : List Contact) (idx i : ℕ) (h : i < cs.length),
      (smsFanOut aid msg ok idx cs).1[i]? =
        some ⟨aid, AlertMethod.SMS, some (cs.get ⟨i, h⟩).phone_number, msg,
          if ok (cs.get ⟨i, h⟩).phone_number then AlertStatus.SENT
          else AlertStatus.FAILED⟩ := by
  intro cs
  induction cs with
  | nil => intro idx i h; simp at h
  | cons c rest ih =>
      intro idx i h
      cases i with
      | zero => simp [smsFanOut]
      | succ j =>
          have hj : j < rest.length := by simpa using h
          simpa [smsFanOut] using ih (idx + 1) j hj

/-- Every contact's send is attempted, whatever the other outcomes. -/
lemma smsFanOut_send_mem (aid : ℕ) (msg : String) (ok : String → Bool) :
    ∀ (cs : List Contact) (idx i : ℕ), i < cs.length →
      Ev.sendAttempt (idx + i) ∈ (smsFanOut aid msg ok idx cs).2 := by
  intro cs
  induction cs with
  | nil => intro idx i h; simp at h
  | cons c rest ih =>
      intro idx i h
      cases i with
      | zero => simp [smsFanOut]
      | succ j =>
          have hj : j < rest.length := by simpa using h
          have hmem := ih (idx + 1) j hj
          have harith : idx + (j + 1) = idx + 1 + j := by omega
          simp only [smsFanOut, List.mem_cons]
          exact Or.inr (Or.inr (Or.inr (harith ▸ hmem)))

/-- **C5.** In the alert fan-out, every contact gets exactly one SMS
notification whose final status records that contact's own delivery outcome
(`SENT` on success, `FAILED` on failure — never an exception), every
contact's send is attempted regardless of other contacts' failures, and the
alert record itself is persisted and survives independently of any delivery
outcome (in particular when every delivery fails). -/
theorem alert_fanout_failure_isolation (a : AlertRec)
    (contacts : List Contact) (smsOk : String → Bool) :
    (alertFanOut a contacts smsOk).alert = a
    ∧ Ev.persistAlert a.id ∈ (alertFanOut a contacts smsOk).events
    ∧ (alertFanOut a contacts smsOk).notifications.length = contacts.length + 1
    ∧ ∀ i, ∀ h : i < contacts.length,
        (alertFanOut a contacts smsOk).notifications[i]? =
          some ⟨a.id, AlertMethod.SMS, some (contacts.get ⟨i, h⟩).phone_number,
            withLocation a,
            if smsOk (contacts.get ⟨i, h⟩).phone_number then AlertStatus.SENT
            else AlertStatus.FAILED⟩
        ∧ Ev.sendAttempt i ∈ (alertFanOut a contacts smsOk).events := by
  refine ⟨rfl, by simp [alertFanOut], ?_, ?_⟩
  · simp [alertFanOut, smsFanOut_fst_length]
  · intro i h
    constructor
    · have hlen : i < (smsFanOut a.id (withLocation a) smsOk 0 contacts).1.length := by
        rw [smsFanOut_fst_length]; exact h
      have := smsFanOut_fst_get a.id (withLocation a) smsOk contacts 0 i h
      simpa [alertFanOut, List.getElem?_append, hlen] using this
    · have := smsFanOut_send_mem a.id (withLocation a) smsOk contacts 0 i h
      simp only [Nat.zero_add] at this
      simp [alertFanOut, this]

/-- Witness for C5 with every delivery failing: both contacts' sends are
attempted and recorded `FAILED`, and the alert record persists. -/
theorem alert_fanout_failure_isolation_witness :
    (alertFanOut ⟨7, "m", none, none⟩ [⟨"p1"⟩, ⟨"p2"⟩] (fun _ => false)).alert
      = ⟨7, "m", none, none⟩
    ∧ (alertFanOut ⟨7, "m", none, none⟩ [⟨"p1"⟩, ⟨"p2"⟩]
        (fun _ => false)).notifications[0]?
      = some ⟨7, AlertMethod.SMS, some "p1", withLocation ⟨7, "m", none, none⟩,
          AlertStatus.FAILED⟩
    ∧ Ev.sendAttempt 1 ∈ (alertFanOut ⟨7, "m", none, none⟩ [⟨"p1"⟩, ⟨"p2"⟩]
        (fun _ => false)).events := by
  obtain ⟨h1, h2, h3, h4⟩ := alert_fanout_failure_isolation
    ⟨7, "m", none, none⟩ [⟨"p1"⟩, ⟨"p2"⟩] (fun _ => false)
  exact ⟨h1, (h4 0 (by decide)).1, (h4 1 (by decide)).2⟩

/-! ### C6 — pending-before-send ordering of the fan-out trace -/

/-- Prefix-closure of the SMS-loop trace: any prefix that contains a send
attempt already contains that notification's `PENDING` persist; any status
update is preceded by its send attempt and carries `SENT` or `FAILED`; every
initial persist carries `PENDING`. -/
lemma smsFanOut_prefix_closed (aid : ℕ) (msg : String) (ok : String → Bool) :
    ∀ (cs : List Contact) (idx : ℕ) (p t : List Ev),
      p ++ t = (smsFanOut aid msg ok idx cs).2 →
      (∀ i, Ev.sendAttempt i ∈ p → Ev.persistNotif i AlertStatus.PENDING ∈ p)
      ∧ (∀ i s, Ev.updateNotif i s ∈ p →
          Ev.sendAttempt i ∈ p ∧ (s = AlertStatus.SENT ∨ s = AlertStatus.FAILED))
      ∧ (∀ i s, Ev.persistNotif i s ∈ p → s = AlertStatus.PENDING) := by
  intro cs
  induction cs with
  | nil =>
      intro idx p t hpt
      simp only [smsFanOut] at hpt
      have hp : p = [] := (List.append_eq_nil.mp hpt).1
      subst hp
      simp
  | cons c rest ih =>
      intro idx p t hpt
      simp only [smsFanOut, List.cons_append] at hpt
      cases p with
      | nil => simp
      | cons x p1 =>
          simp only [List.cons_append, List.cons.injEq] at hpt
          obtain ⟨hx, hpt1⟩ := hpt
          subst hx
          cases p1 with
          | nil =>
              refine ⟨?_, ?_, ?_⟩ <;> intro i
              · simp
              · intro s; simp
              · intro s
                simp only [List.mem_singleton, Ev.persistNotif.injEq]
                exact fun h => h.2
          | cons y p2 =>
              simp only [List.cons_append, List.cons.injEq] at hpt1
              obtain ⟨hy, hpt2⟩ := hpt1
              subst hy
              cases p2 with
              | nil =>
                  refine ⟨?_, ?_, ?_⟩ <;> intro i
                  · intro hi
                    simp only [List.mem_cons, List.not_mem_nil, or_false] at hi ⊢
                    rcases hi with hi | hi
                    · exact absurd hi (by simp)
                    · obtain rfl : i = idx := by
                        simpa [Ev.sendAttempt.injEq] using hi
                      exact Or.inl rfl
                  · intro s; simp
                  · intro s
                    simp only [List.mem_cons, List.not_mem_nil, or_false] at *
                    rintro (hi | hi)
                    · exact (Ev.persistNotif.injEq .. |>.mp hi).2
                    · exact absurd hi (by simp)
              | cons z p3 =>
                  simp only [List.cons_append, List.cons.injEq] at hpt2
                  obtain ⟨hz, hpt3⟩ := hpt2
                  subst hz
                  obtain ⟨ih1, ih2, ih3⟩ := ih (idx + 1) p3 t hpt3
                  refine ⟨?_, ?_, ?_⟩
                  · intro i hi
                    simp only [List.mem_cons] at hi ⊢
                    rcases hi with hi | hi | hi | hi
                    · exact absurd hi (by simp)
                    · obtain rfl : i = idx := by
                        simpa [Ev.sendAttempt.injEq] using hi
                      exact Or.inl rfl
                    · exact absurd hi (by simp)
                    · exact Or.inr (Or.inr (Or.inr (ih1 i hi)))
                  · intro i s hi
                    simp only [List.mem_cons] at hi ⊢
                    rcases hi with hi | hi | hi | hi
                    · exact absurd hi (by simp)
                    · exact absurd hi (by simp)
                    · obtain ⟨rfl, rfl⟩ :
                          i = idx ∧ s = (if ok c.phone_number then
                            AlertStatus.SENT else AlertStatus.FAILED) := by
                        simpa [Ev.updateNotif.injEq] using hi
                      refine ⟨Or.inr (Or.inl rfl), ?_⟩
                      by_cases hok : ok c.phone_number <;> simp [hok]
                    · obtain ⟨hs, hst⟩ := ih2 i s hi
                      exact ⟨Or.inr (Or.inr (Or.inr hs)), hst⟩
                  · intro i s hi
                    simp only [List.mem_cons] at hi
                    rcases hi with hi | hi | hi | hi
                    · exact (Ev.persistNotif.injEq .. |>.mp hi).2
                    · exact absurd hi (by simp)
                    · exact absurd hi (by simp)
                    · exact ih3 i s hi

/-- **C6.** In every observable prefix of one alert's fan-out trace: a
notification's send attempt is always preceded by the persistence of its row
with status `PENDING`; a status update is always preceded by the send attempt
and by the `PENDING` persist, and writes only `SENT` or `FAILED`; every
notification row is first persisted `PENDING`.  Hence no observer polling the
store ever sees a `SENT` notification that was not first recorded
`PENDING`. -/
theorem alert_fanout_pending_before_send (a : AlertRec)
    (contacts : List Contact) (smsOk : String → Bool) (p t : List Ev)
    (hpt : p ++ t = (alertFanOut a contacts smsOk).events) :
    (∀ i, Ev.sendAttempt i ∈ p → Ev.persistNotif i AlertStatus.PENDING ∈ p)
    ∧ (∀ i s, Ev.updateNotif i s ∈ p →
        Ev.sendAttempt i ∈ p ∧ Ev.persistNotif i AlertStatus.PENDING ∈ p
        ∧ (s = AlertStatus.SENT ∨ s = AlertStatus.FAILED))
    ∧ (∀ i s, Ev.persistNotif i s ∈ p → s = AlertStatus.PENDING) := by
  simp only [alertFanOut] at hpt
  cases p with
  | nil => simp
  | cons x p0 =>
      simp only [List.cons_append, List.cons.injEq] at hpt
      obtain ⟨hx, hpt0⟩ := hpt
      subst hx
      rcases List.append_eq_append_iff.mp hpt0 with
        ⟨a', ha1, _⟩ | ⟨c', hc1, hc2⟩
      · -- p0 is a prefix of the SMS-loop trace
        obtain ⟨l1, l2, l3⟩ := smsFanOut_prefix_closed a.id (withLocation a)
          smsOk contacts 0 p0 a' ha1.symm
        refine ⟨?_, ?_, ?_⟩
        · intro i hi
          simp only [List.mem_cons] at hi ⊢
          rcases hi with hi | hi
          · exact absurd hi (by simp)
          · exact Or.inr (l1 i hi)
        · intro i s hi
          simp only [List.mem_cons] at hi ⊢
          rcases hi with hi | hi
          · exact absurd hi (by simp)
          · obtain ⟨hs, hst⟩ := l2 i s hi
            exact ⟨Or.inr hs, Or.inr (l1 i hs), hst⟩
        · intro i s hi
          simp only [List.mem_cons] at hi
          rcases hi with hi | hi
          · exact absurd hi (by simp)
          · exact l3 i s hi
      · -- p0 covers the whole SMS-loop trace plus part of the tail
        obtain ⟨l1, l2, l3⟩ := smsFanOut_prefix_closed a.id (withLocation a)
          smsOk contacts 0 (smsFanOut a.id (withLocation a) smsOk 0 contacts).2
          [] (by simp)
        have hc'sub : ∀ e, e ∈ c' →
            e = Ev.persistNotif contacts.length AlertStatus.PENDING
            ∨ e = Ev.persistEmergency a.id := by
          intro e he
          have : e ∈ c' ++ t := List.mem_append_left _ he
          rw [← hc2] at this
          simpa using this
        subst hc1
        refine ⟨?_, ?_, ?_⟩
        · intro i hi
          simp only [List.mem_cons, List.mem_append] at hi ⊢
          rcases hi with hi | hi | hi
          · exact absurd hi (by simp)
          · exact Or.inr (Or.inl (l1 i hi))
          · rcases hc'sub _ hi with h | h <;> exact absurd h (by simp)
        · intro i s hi
          simp only [List.mem_cons, List.mem_append] at hi ⊢
          rcases hi with hi | hi | hi
          · exact absurd hi (by simp)
          · obtain ⟨hs, hst⟩ := l2 i s hi
            exact ⟨Or.inr (Or.inl hs), Or.inr (Or.inl (l1 i hs)), hst⟩
          · rcases hc'sub _ hi with h | h <;> exact absurd h (by simp)
        · intro i s hi
          simp only [List.mem_cons, List.mem_append] at hi
          rcases hi with hi | hi | hi
          · exact absurd hi (by simp)
          · exact l3 i s hi
          · rcases hc'sub _ hi with h | h
            · exact (Ev.persistNotif.injEq .. |>.mp h).2
            · exact absurd h (by simp)

/-- Witness for C6 at a concrete two-contact fan-out and the prefix that stops
right after the first send attempt: the `PENDING` persist of notification 0 is
already in the prefix. -/
theorem alert_fanout_pending_before_send_witness :
    Ev.persistNotif 0 AlertStatus.PENDING ∈
      [Ev.persistAlert 7, Ev.persistNotif 0 AlertStatus.PENDING,
       Ev.sendAttempt 0] :=
  (alert_fanout_pending_before_send ⟨7, "m", none, none⟩ [⟨"p1"⟩, ⟨"p2"⟩]
      (fun _ => true)
      [Ev.persistAlert 7, Ev.persistNotif 0 AlertStatus.PENDING,
       Ev.sendAttempt 0]
      [Ev.updateNotif 0 AlertStatus.SENT,
       Ev.persistNotif 1 AlertStatus.PENDING, Ev.sendAttempt 1,
       Ev.updateNotif 1 AlertStatus.SENT,
       Ev.persistNotif 2 AlertStatus.PENDING, Ev.persistEmergency 7]
      (by decide)).1 0 (by decide)

/-! ### OTP list lemmas -/

/-- Filtering by a stronger predicate yields a list no longer than filtering
by a weaker one. -/
lemma length_filter_le_of_imp {α : Type} (f g : α → Bool) (l : List α)
    (h : ∀ r, f r = true → g r = true) :
    (l.filter f).length ≤ (l.filter g).length := by
  induction l with
  | nil => simp
  | cons r rest ih =>
      by_cases hf : f r
      · rw [List.filter_cons_of_pos hf, List.filter_cons_of_pos (h r hf)]
        simpa using ih
      · rw [List.filter_cons_of_neg hf]
        by_cases hg : g r
        · rw [List.filter_cons_of_pos hg]
          exact le_trans ih (Nat.le_succ _)
        · rw [List.filter_cons_of_neg hg]
          exact ih

/-- An in-place row update can only shrink the set of rows matching a
predicate, provided the update never makes the predicate newly true. -/
lemma length_filter_map_le {α : Type} (g : α → α) (f : α → Bool) (l : List α)
    (h : ∀ r, f (g r) = true → f r = true) :
    ((l.map g).filter f).length ≤ (l.filter f).length := by
  induction l with
  | nil => simp
  | cons r rest ih =>
      simp only [List.map_cons]
      by_cases hf : f (g r)
      · rw [List.filter_cons_of_pos hf, List.filter_cons_of_pos (h r hf)]
        simpa using ih
      · rw [List.filter_cons_of_neg hf]
        by_cases hr : f r
        · rw [List.filter_cons_of_pos hr]
          exact le_trans ih (Nat.le_succ _)
        · rw [List.filter_cons_of_neg hr]
          exact ih

/-- Two members of a list of length at most one coincide. -/
lemma eq_of_mem_length_le_one {α : Type} {l : List α} (hl : l.length ≤ 1)
    {a b : α} (ha : a ∈ l) (hb : b ∈ l) : a = b := by
  cases l with
  | nil => cases ha
  | cons x xs =>
      cases xs with
      | nil =>
          simp only [List.mem_singleton] at ha hb
          rw [ha, hb]
      | cons y ys => simp at hl

/-- `pickLatest` returns a member of its argument. -/
lemma pickLatest_mem : ∀ (l : List EmailOTP) (r : EmailOTP),
    pickLatest l = some r → r ∈ l := by
  intro l
  induction l with
  | nil => intro r h; simp [pickLatest] at h
  | cons x rest ih =>
      intro r h
      cases hp : pickLatest rest with
      | none =>
          simp only [pickLatest, hp] at h
          injection h with h
          exact h ▸ List.mem_cons_self x rest
      | some b =>
          simp only [pickLatest, hp] at h
          by_cases hc : b.created_at ≥ x.created_at
          · rw [if_pos hc] at h
            injection h with h
            exact h ▸ List.mem_cons_of_mem x (ih b hp)
          · rw [if_neg hc] at h
            injection h with h
            exact h ▸ List.mem_cons_self x rest

/-- `get_latest_valid_otp` is `pickLatest` over the valid rows. -/
lemma get_latest_eq_pickLatest (db : OtpDB) (u : ℕ) (p : String) (now : ℕ) :
    get_latest_valid_otp db u p now = pickLatest (validFor db u p now) := rfl

/-- Membership in the unused-rows view, element-wise. -/
lemma mem_unusedFor_iff (db : OtpDB) (u : ℕ) (p : String) (r : EmailOTP) :
    r ∈ unusedFor db u p ↔
      r ∈ db.otps ∧ r.user_id = u ∧ r.purpose = p ∧ r.used = false := by
  simp [unusedFor, List.mem_filter, Bool.and_eq_true, and_assoc]

/-- Membership in the valid-rows view, element-wise. -/
lemma mem_validFor_iff (db : OtpDB) (u : ℕ) (p : String) (now : ℕ)
    (r : EmailOTP) :
    r ∈ validFor db u p now ↔
      r ∈ db.otps ∧ r.user_id = u ∧ r.purpose = p ∧ r.used = false
        ∧ now < r.expires_at := by
  simp [validFor, List.mem_filter, Bool.and_eq_true, and_assoc]

/-- Valid rows are never more numerous than unused rows. -/
lemma validFor_length_le (db : OtpDB) (u : ℕ) (p : String) (now : ℕ) :
    (validFor db u p now).length ≤ (unusedFor db u p).length := by
  apply length_filter_le_of_imp
  intro r h
  simp only [Bool.and_eq_true] at h ⊢
  exact h.1

/-- After invalidation, the invalidated `(user, purpose)` pair has no unused
rows left. -/
lemma unusedFor_invalidate_self (db : OtpDB) (u : ℕ) (p : String) (now : ℕ) :
    unusedFor (invalidate_previous_otps db u p now) u p = [] := by
  simp only [unusedFor, invalidate_previous_otps]
  induction db.otps with
  | nil => rfl
  | cons r rest ih =>
      simp only [List.map_cons]
      by_cases h : (r.user_id == u && r.purpose == p && !r.used) = true
      · rw [if_pos h, List.filter_cons_of_neg (by simp)]
        exact ih
      · rw [if_neg h, List.filter_cons_of_neg (by simpa using h)]
        exact ih

/-- Invalidation leaves every other `(user, purpose)` pair's unused rows
untouched. -/
lemma unusedFor_invalidate_other (db : OtpDB) (u : ℕ) (p : String) (now : ℕ)
    (u' : ℕ) (p' : String) (hne : ¬(u = u' ∧ p = p')) :
    unusedFor (invalidate_previous_otps db u p now) u' p'
      = unusedFor db u' p' := by
  simp only [unusedFor, invalidate_previous_otps]
  induction db.otps with
  | nil => rfl
  | cons r rest ih =>
      simp only [List.map_cons, List.filter_cons]
      by_cases h : (r.user_id == u && r.purpose == p && !r.used) = true
      · have hmatch : r.user_id = u ∧ r.purpose = p ∧ r.used = false := by
          simpa [Bool.and_eq_true, and_assoc] using h
        have hfalse : ¬(r.user_id == u' && r.purpose == p' && !r.used) = true := by
          intro hb
          have hb' : r.user_id = u' ∧ r.purpose = p' ∧ r.used = false := by
            simpa [Bool.and_eq_true, and_assoc] using hb
          exact hne ⟨hmatch.1.symm.trans hb'.1, hmatch.2.1.symm.trans hb'.2.1⟩
        rw [if_pos h, if_neg (by simp), if_neg hfalse]
        exact ih
      · rw [if_neg h]
        by_cases h' : (r.user_id == u' && r.purpose == p' && !r.used) = true
        · rw [if_pos h', if_pos h', ih]
        · rw [if_neg h', if_neg h']
          exact ih

/-- What a successful `create_email_otp` does to the state. -/
lemma create_email_otp_some (db : OtpDB) (uid : ℕ) (purpose code : String)
    (now : ℕ) (db2 : OtpDB) (oid : ℕ)
    (h : create_email_otp db uid purpose code now = some (db2, oid)) :
    db2.otps = db.otps ++
      [{ id := db.nextOtpId, user_id := uid, otp_hash := hashOtp code,
         created_at := now, expires_at := now + OTP_TTL_SECONDS,
         used := false, attempts := 0, purpose := purpose }]
    ∧ db2.users = db.users ∧ db2.nextOtpId = db.nextOtpId + 1 := by
  simp only [create_email_otp] at h
  cases hf : db.users.find? (fun u => u.id == uid) with
  | none => rw [hf] at h; cases h
  | some _ =>
      rw [hf] at h
      injection h with h
      injection h with h1 h2
      rw [← h1]
      exact ⟨rfl, rfl, rfl⟩

/-- A failed `create_email_otp` means the user lookup failed. -/
lemma create_email_otp_none (db : OtpDB) (uid : ℕ) (purpose code : String)
    (now : ℕ) (h : create_email_otp db uid purpose code now = none) :
    db.users.find? (fun u => u.id == uid) = none := by
  simp only [create_email_otp] at h
  cases hf : db.users.find? (fun u => u.id == uid) with
  | none => rfl
  | some _ => rw [hf] at h; cases h

/-- Appending one row changes a pair's unused view by at most that row. -/
lemma unusedFor_append_single (db : OtpDB) (l : List EmailOTP) (r : EmailOTP)
    (h : db.otps = l ++ [r]) (u : ℕ) (p : String) :
    unusedFor db u p
      = (l.filter fun x => x.user_id == u && x.purpose == p && !x.used)
        ++ (if r.user_id == u && r.purpose == p && !r.used then [r] else []) := by
  simp only [unusedFor, h, List.filter_append]
  congr 1
  simp only [List.filter_cons, List.filter_nil]

/-! ### C4 — single-valid-challenge invariant -/

/-- Issuing (with `invalidate_previous = true`) preserves "at most one unused
challenge per `(user, purpose)`": the issued pair ends with exactly the new
row (or none, when the user lookup fails after invalidation), other pairs are
untouched. -/
lemma gen_preserves_inv (db : OtpDB) (uid : ℕ) (code : String) (sendOk : Bool)
    (now : ℕ) (hinv : ∀ u p, (unusedFor db u p).length ≤ 1) :
    ∀ u p,
      (unusedFor (generate_and_send_email_otp db uid code true sendOk now).1
        u p).length ≤ 1 := by
  intro u p
  have hother : ¬(uid = u ∧ "email_verification" = p) →
      unusedFor (invalidate_previous_otps db uid "email_verification" now) u p
        = unusedFor db u p :=
    fun hne => unusedFor_invalidate_other db uid "email_verification" now u p hne
  simp only [generate_and_send_email_otp, if_true]
  cases hc : create_email_otp
      (invalidate_previous_otps db uid "email_verification" now) uid
      "email_verification" code now with
  | none =>
      simp only
      by_cases hpair : uid = u ∧ "email_verification" = p
      · obtain ⟨rfl, rfl⟩ := hpair
        rw [unusedFor_invalidate_self]
        simp
      · rw [hother hpair]
        exact hinv u p
  | some pr =>
      obtain ⟨db2, oid⟩ := pr
      simp only
      obtain ⟨hotps, -, -⟩ := create_email_otp_some _ _ _ _ _ _ _ hc
      rw [unusedFor_append_single db2 _ _ hotps u p]
      by_cases hpair : uid = u ∧ "email_verification" = p
      · obtain ⟨rfl, rfl⟩ := hpair
        have hself := unusedFor_invalidate_self db uid "email_verification" now
        simp only [unusedFor] at hself
        rw [hself]
        simp only [List.nil_append, List.length_append]
        split <;> simp
      · have hoth := hother hpair
        simp only [unusedFor] at hoth
        rw [hoth]
        rw [if_neg (by
          intro hb
          simp only [Bool.and_eq_true, beq_iff_eq] at hb
          exact hpair ⟨hb.1.1, hb.1.2⟩), List.append_nil]
        exact hinv u p

/-- `verify_email_otp` never increases any pair's unused-row count. -/
lemma verify_preserves_inv (db : OtpDB) (uid : ℕ) (code purpose : String)
    (now : ℕ) (hinv : ∀ u p, (unusedFor db u p).length ≤ 1) :
    ∀ u p,
      (unusedFor (verify_email_otp db uid code purpose now).1 u p).length
        ≤ 1 := by
  intro u p
  have hUpdOtp : ∀ (id : ℕ) (f : EmailOTP → EmailOTP),
      (∀ r, ((f r).user_id == u && (f r).purpose == p && !(f r).used) = true →
        (r.user_id == u && r.purpose == p && !r.used) = true) →
      (unusedFor (updateOtp db id f) u p).length ≤ 1 := by
    intro id f hf
    refine le_trans ?_ (hinv u p)
    simp only [unusedFor, updateOtp]
    apply length_filter_map_le
    intro r hr
    by_cases hid : (r.id == id) = true
    · rw [if_pos hid] at hr
      exact hf r hr
    · rwa [if_neg hid] at hr
  simp only [verify_email_otp]
  cases hl : get_latest_valid_otp db uid purpose now with
  | none => exact hinv u p
  | some otp =>
      simp only
      split_ifs with h1 h2
      · exact hUpdOtp otp.id _ (by intro r hb; simp at hb)
      · exact hUpdOtp otp.id _ (by intro r hb; simpa using hb)
      · cases hfind : (updateOtp db otp.id
            (fun r => { r with used := true })).users.find?
            (fun u => u.id == uid) with
        | none =>
            simp only
            exact hUpdOtp otp.id _ (by intro r hb; simp at hb)
        | some _ =>
            simp only [updateUser, unusedFor]
            exact hUpdOtp otp.id _ (by intro r hb; simp at hb)

/-- `resend_email_otp` preserves the unused-row bound. -/
lemma resend_preserves_inv (db : OtpDB) (email code : String) (sendOk : Bool)
    (now : ℕ) (hinv : ∀ u p, (unusedFor db u p).length ≤ 1) :
    ∀ u p,
      (unusedFor (resend_email_otp db email code sendOk now).1 u p).length
        ≤ 1 := by
  intro u p
  simp only [resend_email_otp]
  cases hf : db.users.find? (fun u => u.email == email) with
  | none => exact hinv u p
  | some user =>
      simp only
      by_cases hcan : can_resend_otp db user.id "email_verification" now
      · rw [if_neg (by simp [hcan])]
        have := gen_preserves_inv db user.id code sendOk now hinv u p
        cases hg : generate_and_send_email_otp db user.id code true sendOk now with
        | mk db2 resp =>
            cases resp with
            | none => simpa [hg] using this
            | some r => simpa [hg] using this
      · rw [if_pos (by simp [hcan])]
        exact hinv u p

/-- Every OTP operation preserves the unused-row bound. -/
lemma step_preserves_inv (db : OtpDB) (op : OtpOp)
    (hinv : ∀ u p, (unusedFor db u p).length ≤ 1) :
    ∀ u p, (unusedFor (otpStep db op) u p).length ≤ 1 := by
  cases op with
  | issue uid code sendOk now => exact gen_preserves_inv db uid code sendOk now hinv
  | resend email code sendOk now => exact resend_preserves_inv db email code sendOk now hinv
  | verify uid code now => exact verify_preserves_inv db uid code "email_verification" now hinv

/-- In every state reachable by OTP operations from an empty OTP table, each
`(user, purpose)` pair has at most one unused challenge row. -/
lemma runOtp_inv (users : List UserRec) (ops : List OtpOp) :
    ∀ u p, (unusedFor (runOtp users ops) u p).length ≤ 1 := by
  suffices h : ∀ (l : List OtpOp) (db : OtpDB),
      (∀ u p, (unusedFor db u p).length ≤ 1) →
      ∀ u p, (unusedFor (l.foldl otpStep db) u p).length ≤ 1 by
    refine h ops (initOtpDB users) ?_
    intro u p
    simp [unusedFor, initOtpDB]
  intro l
  induction l with
  | nil => intro db hdb; exact hdb
  | cons op rest ih =>
      intro db hdb
      exact ih (otpStep db op) (step_preserves_inv db op hdb)

/-- A `verified` outcome means the supplied code's hash matches the located
latest valid challenge. -/
lemma verify_verified_hash (db : OtpDB) (uid : ℕ) (code purpose : String)
    (now : ℕ)
    (h : (verify_email_otp db uid code purpose now).2 = VerifyResult.verified) :
    ∃ otp, get_latest_valid_otp db uid purpose now = some otp
      ∧ hashOtp code = otp.otp_hash := by
  simp only [verify_email_otp] at h
  cases hl : get_latest_valid_otp db uid purpose now with
  | none => rw [hl] at h; cases h
  | some otp =>
      rw [hl] at h
      simp only at h
      by_cases h1 : otp.attempts ≥ OTP_MAX_ATTEMPTS
      · rw [if_pos h1] at h; cases h
      · rw [if_neg h1] at h
        by_cases h2 : hashOtp code ≠ otp.otp_hash
        · rw [if_pos h2] at h; cases h
        · exact ⟨otp, rfl, not_not.mp h2⟩

/-- **C4.** After any sequence of issue/resend/verify operations from an empty
OTP table: (i) at most one valid (unused, unexpired) challenge exists per
`(user, purpose)` at any instant; (ii) issuing a new challenge first marks
every prior challenge of that `(user, purpose)` as used (each prior row's
image in the new state is used); (iii) a verify can succeed only with the code
of the unique unused — that is, most recently issued — challenge of the
pair. -/
theorem otp_single_valid_challenge (users : List UserRec) (ops : List OtpOp) :
    (∀ u p now, (validFor (runOtp users ops) u p now).length ≤ 1)
    ∧ (∀ uid code sendOk now r, r ∈ (runOtp users ops).otps →
        r.user_id = uid → r.purpose = "email_verification" →
        ∃ r', r' ∈ (otpStep (runOtp users ops)
            (OtpOp.issue uid code sendOk now)).otps
          ∧ r'.id = r.id ∧ r'.used = true)
    ∧ (∀ uid code now,
        (verify_email_otp (runOtp users ops) uid code "email_verification"
          now).2 = VerifyResult.verified →
        ∃ otp, get_latest_valid_otp (runOtp users ops) uid
            "email_verification" now = some otp
          ∧ hashOtp code = otp.otp_hash
          ∧ ∀ r ∈ (runOtp users ops).otps, r.user_id = uid →
              r.purpose = "email_verification" → r.used = false → r = otp) := by
  have hinv := runOtp_inv users ops
  refine ⟨?_, ?_, ?_⟩
  · intro u p now
    exact le_trans (validFor_length_le _ u p now) (hinv u p)
  · intro uid code sendOk now r hr hru hrp
    set db := runOtp users ops with hdb
    have hmem1 : (if (r.user_id == uid && r.purpose == "email_verification"
          && !r.used) = true then
            { r with used := true, expires_at := now } else r)
        ∈ (invalidate_previous_otps db uid "email_verification" now).otps := by
      simp only [invalidate_previous_otps]
      exact List.mem_map_of_mem _ hr
    set r1 := (if (r.user_id == uid && r.purpose == "email_verification"
        && !r.used) = true then
          { r with used := true, expires_at := now } else r) with hr1
    have hr1id : r1.id = r.id := by
      rw [hr1]; split <;> rfl
    have hr1used : r1.used = true := by
      rw [hr1]
      by_cases hu : r.used = true
      · split <;> simpa [hu]
      · have hufalse : r.used = false := by simpa using hu
        rw [if_pos (by simp [hru, hrp, hufalse])]
    simp only [otpStep, generate_and_send_email_otp, if_true]
    cases hc : create_email_otp
        (invalidate_previous_otps db uid "email_verification" now) uid
        "email_verification" code now with
    | none => exact ⟨r1, hmem1, hr1id, hr1used⟩
    | some pr =>
        obtain ⟨db2, oid⟩ := pr
        obtain ⟨hotps, -, -⟩ := create_email_otp_some _ _ _ _ _ _ _ hc
        refine ⟨r1, ?_, hr1id, hr1used⟩
        simp only [hotps]
        exact List.mem_append_left _ hmem1
  · intro uid code now hv
    obtain ⟨otp, hlat, hhash⟩ :=
      verify_verified_hash _ uid code "email_verification" now hv
    refine ⟨otp, hlat, hhash, ?_⟩
    intro r hr hru hrp hrused
    have hotpmem : otp ∈ validFor (runOtp users ops) uid "email_verification"
        now := pickLatest_mem _ _ (get_latest_eq_pickLatest .. ▸ hlat)
    have hotpunused : otp ∈ unusedFor (runOtp users ops) uid
        "email_verification" := by
      rw [mem_unusedFor_iff]
      have := (mem_validFor_iff _ _ _ _ _).mp hotpmem
      exact ⟨this.1, this.2.1, this.2.2.1, this.2.2.2.1⟩
    have hrmem : r ∈ unusedFor (runOtp users ops) uid "email_verification" :=
      (mem_unusedFor_iff _ _ _ _).mpr ⟨hr, hru, hrp, hrused⟩
    exact eq_of_mem_length_le_one (hinv uid "email_verification") hrmem hotpunused

/-- Witness for C4: after issuing twice for the same user, at most one valid
challenge remains, and the verify that succeeds does so with the hash of the
uniquely remaining (most recently issued) code. -/
theorem otp_single_valid_challenge_witness :
    (validFor (runOtp [otpUser]
        [OtpOp.issue 1 "111111" true 0, OtpOp.issue 1 "222222" true 40])
      1 "email_verification" 50).length ≤ 1
    ∧ ∃ otp, get_latest_valid_otp (runOtp [otpUser]
          [OtpOp.issue 1 "111111" true 0, OtpOp.issue 1 "222222" true 40])
          1 "email_verification" 50 = some otp
        ∧ hashOtp "222222" = otp.otp_hash
        ∧ ∀ r ∈ (runOtp [otpUser]
            [OtpOp.issue 1 "111111" true 0,
             OtpOp.issue 1 "222222" true 40]).otps,
          r.user_id = 1 → r.purpose = "email_verification" → r.used = false →
            r = otp := by
  obtain ⟨h1, -, h3⟩ := otp_single_valid_challenge [otpUser]
    [OtpOp.issue 1 "111111" true 0, OtpOp.issue 1 "222222" true 40]
  exact ⟨h1 1 "email_verification" 50, h3 1 "222222" 50 (by decide)⟩

/-! ### C3 — verification after attempt exhaustion -/

/-- **C3 (amended).** When the latest valid challenge has
`attempts ≥ OTP_MAX_ATTEMPTS`, the next verify — whatever code it supplies,
including the correct one — marks that challenge used, returns
`maxAttemptsExceeded`, and leaves the user table untouched (the user is not
marked verified).  Because the challenge is thereby consumed, any *later*
verify (when that challenge was the only unused one of the pair) returns
`noValidCode`, not `maxAttemptsExceeded`. -/
theorem verify_after_exhaustion (db : OtpDB) (uid : ℕ) (code purpose : String)
    (now : ℕ) (otp : EmailOTP)
    (hlat : get_latest_valid_otp db uid purpose now = some otp)
    (hatt : otp.attempts ≥ OTP_MAX_ATTEMPTS) :
    (verify_email_otp db uid code purpose now).2
      = VerifyResult.maxAttemptsExceeded
    ∧ (verify_email_otp db uid code purpose now).1
      = updateOtp db otp.id (fun r => { r with used := true })
    ∧ (verify_email_otp db uid code purpose now).1.users = db.users
    ∧ ((∀ r ∈ db.otps, r.user_id = uid → r.purpose = purpose →
          r.used = false → r = otp) →
        ∀ code' now',
          (verify_email_otp (verify_email_otp db uid code purpose now).1 uid
            code' purpose now').2 = VerifyResult.noValidCode) := by
  have hmain : verify_email_otp db uid code purpose now
      = (updateOtp db otp.id (fun r => { r with used := true }),
         VerifyResult.maxAttemptsExceeded) := by
    simp only [verify_email_otp, hlat]
    rw [if_pos hatt]
  refine ⟨by rw [hmain], by rw [hmain], by rw [hmain]; rfl, ?_⟩
  intro huniq code' now'
  rw [hmain]
  have hempty : validFor (updateOtp db otp.id (fun r => { r with used := true }))
      uid purpose now' = [] := by
    rw [validFor, List.filter_eq_nil_iff]
    intro a ha
    simp only [updateOtp] at ha
    obtain ⟨r, hr, rfl⟩ := List.mem_map.mp ha
    by_cases hid : (r.id == otp.id) = true
    · rw [if_pos hid]
      simp
    · rw [if_neg hid]
      intro hpred
      have hflds : ((r.user_id = uid ∧ r.purpose = purpose) ∧ r.used = false)
          ∧ now' < r.expires_at := by
        simpa [Bool.and_eq_true] using hpred
      have : r = otp := huniq r hr hflds.1.1.1 hflds.1.1.2 hflds.1.2
      rw [this] at hid
      simp at hid
  simp only [verify_email_otp, get_latest_eq_pickLatest, hempty, pickLatest]

/-- Witness for C3 (amended) at the §8 scenario state (5 wrong tries on a
6-digit code, `max_attempts = 5`): the 6th verify with the correct code
returns `maxAttemptsExceeded` and does not touch the user table. -/
theorem verify_after_exhaustion_witness :
    (verify_email_otp c3Exhausted 1 "123456" "email_verification" 6).2
      = VerifyResult.maxAttemptsExceeded
    ∧ (verify_email_otp c3Exhausted 1 "123456" "email_verification" 6).1.users
      = c3Exhausted.users := by
  obtain ⟨h1, -, h3, -⟩ := verify_after_exhaustion c3Exhausted 1 "123456"
    "email_verification" 6
    ⟨0, 1, hashOtp "123456", 0, 600, false, 5, "email_verification"⟩
    (by decide) (by decide)
  exact ⟨h1, h3⟩

/-- **C3 counterexample.** The claim's "*every* subsequent verify call …
returns `MaxAttemptsExceeded`" fails on the code: the 6th verify (first past
exhaustion) does return `maxAttemptsExceeded`, but it marks the challenge
used, so the 7th verify — again with the correct code — returns
`noValidCode`, which is not `maxAttemptsExceeded`. -/
theorem verify_after_exhaustion_counterexample :
    (verify_email_otp c3Exhausted 1 "123456" "email_verification" 6).2
      = VerifyResult.maxAttemptsExceeded
    ∧ (verify_email_otp c3AfterSixth 1 "123456" "email_verification" 7).2
      = VerifyResult.noValidCode
    ∧ VerifyResult.noValidCode ≠ VerifyResult.maxAttemptsExceeded := by
  refine ⟨by decide, by decide, by decide⟩

/-! ### C7 / C9 — resend cooldown and account-hiding -/

/-- What a cooldown-cleared resend for an existing user does: the response is
the generic "resent if account exists" message with the send outcome, all
previous unused challenges of the pair are invalidated, and exactly one fresh
challenge (hash of the new code, created now) is inserted. -/
lemma resend_success (db : OtpDB) (email code : String) (sendOk : Bool)
    (now : ℕ) (user : UserRec)
    (hu : db.users.find? (fun u => u.email == email) = some user)
    (hcan : can_resend_otp db user.id "email_verification" now = true) :
    resend_email_otp db email code sendOk now
      = ({ users := db.users,
           otps := (invalidate_previous_otps db user.id "email_verification"
                      now).otps ++
                   [{ id := db.nextOtpId, user_id := user.id,
                      otp_hash := hashOtp code, created_at := now,
                      expires_at := now + OTP_TTL_SECONDS, used := false,
                      attempts := 0, purpose := "email_verification" }],
           nextOtpId := db.nextOtpId + 1 },
         { message := "Verification code resent if account exists.",
           otp_sent := sendOk }) := by
  have hmem : user ∈ db.users := List.mem_of_find?_eq_some hu
  have hfind2 : ∃ w, db.users.find? (fun x => x.id == user.id) = some w := by
    cases hf2 : db.users.find? (fun x => x.id == user.id) with
    | none =>
        exact absurd (by simp : (user.id == user.id) = true)
          (by simpa using List.find?_eq_none.mp hf2 user hmem)
    | some w => exact ⟨w, rfl⟩
  obtain ⟨w, hw⟩ := hfind2
  have hc : create_email_otp
      (invalidate_previous_otps db user.id "email_verification" now) user.id
      "email_verification" code now
      = some ({ users := db.users,
                otps := (invalidate_previous_otps db user.id
                           "email_verification" now).otps ++
                        [{ id := db.nextOtpId, user_id := user.id,
                           otp_hash := hashOtp code, created_at := now,
                           expires_at := now + OTP_TTL_SECONDS, used := false,
                           attempts := 0,
                           purpose := "email_verification" }],
                nextOtpId := db.nextOtpId + 1 }, db.nextOtpId) := by
    simp only [create_email_otp]
    rw [show (invalidate_previous_otps db user.id "email_verification"
        now).users = db.users from rfl, hw]
    rfl
  have hgen : generate_and_send_email_otp db user.id code true sendOk now
      = ({ users := db.users,
           otps := (invalidate_previous_otps db user.id "email_verification"
                      now).otps ++
                   [{ id := db.nextOtpId, user_id := user.id,
                      otp_hash := hashOtp code, created_at := now,
                      expires_at := now + OTP_TTL_SECONDS, used := false,
                      attempts := 0, purpose := "email_verification" }],
           nextOtpId := db.nextOtpId + 1 },
         some { ok := true, sent := sendOk, otp_id := db.nextOtpId }) := by
    simp only [generate_and_send_email_otp, if_true]
    rw [hc]
  simp only [resend_email_otp, hu]
  rw [if_neg (by simp [hcan]), hgen]

/-- A resend for an email that belongs to no user changes nothing and returns
the fixed generic response. -/
lemma resend_nonexistent (db : OtpDB) (email code : String) (sendOk : Bool)
    (now : ℕ)
    (hghost : db.users.find? (fun u => u.email == email) = none) :
    resend_email_otp db email code sendOk now
      = (db, { message := "Verification code resent if account exists.",
               otp_sent := false }) := by
  simp only [resend_email_otp, hghost]

/-- **C7.** With `last` the most recently created challenge of the user's
pair: a resend strictly inside the cooldown window is rejected as a typed
outcome — the state is unchanged, so no new code is issued and prior
challenges stay valid; a resend at or past the cooldown succeeds (`otp_sent`
mirrors the delivery outcome), invalidates every prior unused challenge of
the pair and leaves exactly the freshly issued code's challenge unused. -/
theorem resend_cooldown (db : OtpDB) (email code : String) (sendOk : Bool)
    (now : ℕ) (user : UserRec) (last : EmailOTP)
    (hu : db.users.find? (fun u => u.email == email) = some user)
    (hlast : pickLatest (db.otps.filter fun r =>
        r.user_id == user.id && r.purpose == "email_verification")
      = some last) :
    ((now : ℤ) - (last.created_at : ℤ) < (OTP_RESEND_COOLDOWN_SECONDS : ℤ) →
      resend_email_otp db email code sendOk now
        = (db, { message := "Please wait before requesting another OTP.",
                 otp_sent := false }))
    ∧ ((now : ℤ) - (last.created_at : ℤ) ≥ (OTP_RESEND_COOLDOWN_SECONDS : ℤ) →
      (resend_email_otp db email code sendOk now).2
        = { message := "Verification code resent if account exists.",
            otp_sent := sendOk }
      ∧ unusedFor (resend_email_otp db email code sendOk now).1 user.id
          "email_verification"
        = [{ id := db.nextOtpId, user_id := user.id,
             otp_hash := hashOtp code, created_at := now,
             expires_at := now + OTP_TTL_SECONDS, used := false,
             attempts := 0, purpose := "email_verification" }]) := by
  constructor
  · intro hlt
    have hcan : can_resend_otp db user.id "email_verification" now = false := by
      simp only [can_resend_otp, hlast]
      simp [not_le.mpr hlt]
    simp only [resend_email_otp, hu]
    rw [if_pos (by simp [hcan])]
  · intro hge
    have hcan : can_resend_otp db user.id "email_verification" now = true := by
      simp only [can_resend_otp, hlast]
      simp [hge]
    rw [resend_success db email code sendOk now user hu hcan]
    refine ⟨rfl, ?_⟩
    rw [unusedFor_append_single _
      (invalidate_previous_otps db user.id "email_verification" now).otps _
      rfl user.id "email_verification"]
    have h0 : unusedFor (invalidate_previous_otps db user.id
        "email_verification" now) user.id "email_verification" = [] :=
      unusedFor_invalidate_self db user.id "email_verification" now
    simp only [unusedFor] at h0
    rw [h0, List.nil_append, if_pos (by simp)]

/-- Witness for C7 on the concrete one-challenge state `c9Db` (issued at
`t = 0`, cooldown 30 s): a resend at `t = 10` is rejected with the state
unchanged; a resend at `t = 30` succeeds and leaves exactly the new code's
challenge unused. -/
theorem resend_cooldown_witness :
    resend_email_otp c9Db "a@x.com" "222222" true 10
      = (c9Db, { message := "Please wait before requesting another OTP.",
                 otp_sent := false })
    ∧ (resend_email_otp c9Db "a@x.com" "222222" true 30).2
      = { message := "Verification code resent if account exists.",
          otp_sent := true }
    ∧ unusedFor (resend_email_otp c9Db "a@x.com" "222222" true 30).1 1
        "email_verification"
      = [{ id := 1, user_id := 1, otp_hash := hashOtp "222222",
           created_at := 30, expires_at := 630, used := false,
           attempts := 0, purpose := "email_verification" }] := by
  have h10 := resend_cooldown c9Db "a@x.com" "222222" true 10 otpUser
    ⟨0, 1, hashOtp "111111", 0, 600, false, 0, "email_verification"⟩
    (by decide) (by decide)
  have h30 := resend_cooldown c9Db "a@x.com" "222222" true 30 otpUser
    ⟨0, 1, hashOtp "111111", 0, 600, false, 0, "email_verification"⟩
    (by decide) (by decide)
  obtain ⟨hr2, hr3⟩ := h30.2 (by decide)
  exact ⟨h10.1 (by decide), hr2, hr3⟩

/-- **C9 (amended).** The response for an email belonging to no user is the
fixed `{message: "Verification code resent if account exists.", otp_sent:
false}` with the state unchanged, and it is identical to the response for an
existing user whose resend clears the cooldown but whose email delivery
fails.  (It is *not* identical to a cooldown-rejected existing user's
response — see the counterexample.) -/
theorem resend_nonexistent_indistinguishable (db : OtpDB)
    (ghost email code code' : String) (sendOk : Bool) (now now' : ℕ)
    (user : UserRec)
    (hghost : db.users.find? (fun u => u.email == ghost) = none)
    (hu : db.users.find? (fun u => u.email == email) = some user)
    (hcan : can_resend_otp db user.id "email_verification" now = true) :
    (resend_email_otp db ghost code' sendOk now').2
      = (resend_email_otp db email code false now).2
    ∧ (resend_email_otp db ghost code' sendOk now').1 = db := by
  rw [resend_nonexistent db ghost code' sendOk now' hghost,
    resend_success db email code false now user hu hcan]
  exact ⟨rfl, rfl⟩

/-- Witness for C9 (amended) on `c9Db` at `t = 30` (cooldown cleared): the
ghost response equals the send-failure response of the real user, and the
ghost resend leaves the state untouched. -/
theorem resend_nonexistent_indistinguishable_witness :
    (resend_email_otp c9Db "ghost@x.com" "999999" true 30).2
      = (resend_email_otp c9Db "a@x.com" "222222" false 30).2
    ∧ (resend_email_otp c9Db "ghost@x.com" "999999" true 30).1 = c9Db :=
  resend_nonexistent_indistinguishable c9Db "ghost@x.com" "a@x.com" "222222"
    "999999" true 30 30 otpUser (by decide) (by decide) (by decide)

/-- **C9 counterexample.** On the concrete state `c9Db` (user `a@x.com`,
challenge issued at `t = 0`), a resend at `t = 10` for the existing user is
rejected by the cooldown with message "Please wait before requesting another
OTP.", while the same resend for the non-existent `ghost@x.com` answers
"Verification code resent if account exists." — the two responses differ, so
a failed resend *does* reveal whether the account exists. -/
theorem resend_account_enumeration_leak :
    (resend_email_otp c9Db "a@x.com" "222222" true 10).2
      = { message := "Please wait before requesting another OTP.",
          otp_sent := false }
    ∧ (resend_email_otp c9Db "ghost@x.com" "222222" true 10).2
      = { message := "Verification code resent if account exists.",
          otp_sent := false }
    ∧ (resend_email_otp c9Db "a@x.com" "222222" true 10).2
      ≠ (resend_email_otp c9Db "ghost@x.com" "222222" true 10).2 := by
  refine ⟨by decide, by decide, by decide⟩

end MedGuardian
